import Mathlib

/-!
# Verification of the imSim source-synthesis and sky-background code

Shallow embedding of `src/imsim/skycat.py` (class `SkyCatalogInterface`)
and `src/python/desc/imsim/skyModel.py` (function `skyCountsPerSec`,
class `ESOSkyModel`), with theorems settling the frozen claims about
them.

Conventions of the embedding:
* Python floats are modelled as `ℚ` where the code only does field
  arithmetic, and as `ℝ` where it takes square roots or exponentials;
  possibly-infinite float values (`magnorm`) get a dedicated type.
* Python list indexing (which wraps negative indices and raises
  `IndexError` out of range) is `pyGet`.
* Fallible code returns `Except PyErr _`; `assert` statements become
  explicit `AssertionError` checks; resolution of an undefined Python
  name becomes an explicit `NameError` check against the set of local
  names actually bound in the function body.
* External collaborators (galsim SED/bandpass machinery, the noise
  model application, the random stream) are opaque parameters.
-/

namespace ImSim

/-- Python exception kinds that the embedded code can raise. -/
inductive PyErr
  | indexError
  | assertionError
  | runtimeError
  | nameError
  | attributeError
  deriving DecidableEq, Repr

/-- Python list indexing `xs[i]`: a negative index counts from the end
(`xs[-1]` is the last element); an index out of `[-len, len)` raises
`IndexError`. -/
def pyGet {α : Type} (xs : List α) (i : ℤ) : Except PyErr α :=
  let j : ℤ := if i < 0 then i + xs.length else i
  if h : 0 ≤ j ∧ j.toNat < xs.length then .ok (xs.get ⟨j.toNat, h.2⟩)
  else .error .indexError

/-- A possibly-infinite float, used for `magnorm` values coming out of
`skycat_obj.get_sed`. -/
inductive PyFloat
  | posInf
  | negInf
  | fin (q : ℚ)
  deriving DecidableEq, Repr

/-- `np.isinf` on a `PyFloat`. -/
def PyFloat.isinf : PyFloat → Bool
  | .posInf => true
  | .negInf => true
  | .fin _ => false

/-- The float comparison `magnorm >= 50`. -/
def PyFloat.ge50 : PyFloat → Bool
  | .posInf => true
  | .negInf => false
  | .fin q => 50 ≤ q

/-- The finite value of a `PyFloat` (junk value `0` on the infinities;
every use site is guarded by an `isinf` check in the code). -/
def PyFloat.toRat : PyFloat → ℚ
  | .posInf => 0
  | .negInf => 0
  | .fin q => q

/-- Python's built-in `round` on an exact rational: round half to even
(banker's rounding), as used in `round(n*20.)/20.`. -/
def pyRound (q : ℚ) : ℤ :=
  let f := ⌊q⌋
  let r := q - f
  if r < 1/2 then f
  else if 1/2 < r then f + 1
  else if Even f then f else f + 1

/-- The Sérsic-index quantization in `SkyCatalogInterface.getObj`:
`n = round(n*20.)/20.`. -/
def quantize (n : ℚ) : ℚ := (pyRound (n * 20) : ℚ) / 20

/-- A skyCatalogs `BaseObject` as seen by `SkyCatalogInterface`: its
object type, declared sub-components, sky position, the
`(wl, flambda, magnorm)` triple returned by `get_sed(component=...)`,
and its native attributes (`get_native_attribute`), modelled as a total
map from attribute name to value. -/
structure CatalogObject where
  object_type : String
  subcomponents : List String
  ra : ℚ
  dec : ℚ
  get_sed : Option String → List ℚ × List ℚ × PyFloat
  attrs : String → ℚ

/-- A galsim SED as used here: the lookup-table data
(`galsim.LookupTable(wl, flambda)` wrapped in `galsim.SED(..)` and
re-normalized by `withMagnitude(0, _bp500)`); the normalization itself
is external galsim machinery, so the SED is kept as its defining
data. -/
structure SED where
  wl : List ℚ
  flambda : List ℚ
  deriving DecidableEq

/-- The galsim object (`GSObject` / `ChromaticObject`) built by
`getObj`: a base profile wrapped by the applied transformations, in the
order the code applies them. -/
inductive GSObject
  | deltaFunction
  | sersic (n : ℚ) (half_light_radius : ℝ)
  | randomKnots (npoints : ℚ) (half_light_radius : ℝ)
  | sheared (obj : GSObject) (q : ℚ) (beta : ℚ)
  | lensed (obj : GSObject) (g1 g2 mu : ℚ)
  | withFlux (obj : GSObject) (flux : ℝ)
  | chromatic (obj : GSObject) (sed : SED)

/-- The half-light radius of the base profile under the applied
transformation wrappers, when the base profile has one. -/
def GSObject.hlr? : GSObject → Option ℝ
  | .deltaFunction => none
  | .sersic _ h => some h
  | .randomKnots _ h => some h
  | .sheared o _ _ => o.hlr?
  | .lensed o _ _ _ => o.hlr?
  | .withFlux o _ => o.hlr?
  | .chromatic o _ => o.hlr?

/-- The `(q, beta)` of the intrinsic-ellipticity shear applied by
`getObj`, read back through the outer wrappers. -/
def GSObject.shearParams? : GSObject → Option (ℚ × ℚ)
  | .deltaFunction => none
  | .sersic _ _ => none
  | .randomKnots _ _ => none
  | .sheared _ q beta => some (q, beta)
  | .lensed o _ _ _ => o.shearParams?
  | .withFlux o _ => o.shearParams?
  | .chromatic o _ => o.shearParams?

/-- The Sérsic index of the base profile, read back through the
wrappers. -/
def GSObject.sersicIndex? : GSObject → Option ℚ
  | .deltaFunction => none
  | .sersic n _ => some n
  | .randomKnots _ _ => none
  | .sheared o _ _ => o.sersicIndex?
  | .lensed o _ _ _ => o.sersicIndex?
  | .withFlux o _ => o.sersicIndex?
  | .chromatic o _ => o.sersicIndex?

/-- The state of a `SkyCatalogInterface` after `__init__`: the objects
returned by the region query and the `flip_g2` option. -/
structure SkyCatalogInterface where
  objects : List CatalogObject
  flip_g2 : Bool

namespace SkyCatalogInterface

/-- `_index_subcomponents`: flatten the objects into the list
`self._index` of `(object_index, subcomponent)` pairs, one entry per
sub-component, or a single `(i, None)` entry when the object declares
no sub-components. -/
def index (self : SkyCatalogInterface) : List (ℕ × Option String) :=
  (self.objects.enum.map fun p =>
    let subcomponents := p.2.subcomponents
    if subcomponents.isEmpty then [(p.1, (none : Option String))]
    else subcomponents.map fun c => (p.1, some c)).flatten

/-- `getNObjects`: `len(self._index)`. -/
def getNObjects (self : SkyCatalogInterface) : ℕ :=
  self.index.length

/-- `get_skycat_obj(index)`:
`obj_index, _ = self._index[index]; return self.objects[obj_index]`. -/
def get_skycat_obj (self : SkyCatalogInterface) (i : ℤ) :
    Except PyErr CatalogObject := do
  let (obj_index, _) ← pyGet self.index i
  pyGet self.objects obj_index

/-- `getSED_info(index)`: fetch `(wl, flambda, magnorm)` from the
object for the component; if `np.isinf(magnorm)` return
`(None, magnorm)`, else build the lookup-table SED, normalize it to
magnitude 0 in the reference 500 nm bandpass, and return it with
`magnorm`. -/
def getSED_info (self : SkyCatalogInterface) (i : ℤ) :
    Except PyErr (Option SED × PyFloat) := do
  let (obj_index, component) ← pyGet self.index i
  let obj ← pyGet self.objects obj_index
  let (wl, flambda, magnorm) := obj.get_sed component
  if magnorm.isinf then return (none, magnorm)
  else return (some ⟨wl, flambda⟩, magnorm)

/-- `getWorldPos(index)`: the `(ra, dec)` of the underlying object, in
degrees. -/
def getWorldPos (self : SkyCatalogInterface) (i : ℤ) :
    Except PyErr (ℚ × ℚ) := do
  let skycat_obj ← self.get_skycat_obj i
  return (skycat_obj.ra, skycat_obj.dec)

/-- `getLens(index)`: read `shear_1`, `shear_2`, `convergence` and
return the reduced shears and magnification
`(gamma1/(1-kappa), gamma2/(1-kappa),
1/((1-kappa)^2 - (gamma1^2+gamma2^2)))`. -/
def getLens (self : SkyCatalogInterface) (i : ℤ) :
    Except PyErr (ℚ × ℚ × ℚ) := do
  let skycat_obj ← self.get_skycat_obj i
  let gamma1 := skycat_obj.attrs "shear_1"
  let gamma2 := skycat_obj.attrs "shear_2"
  let kappa := skycat_obj.attrs "convergence"
  let g1 := gamma1 / (1 - kappa)
  let g2 := gamma2 / (1 - kappa)
  let mu := 1 / ((1 - kappa)^2 - (gamma1^2 + gamma2^2))
  return (g1, g2, mu)

/-- `getDust(index, band)`: internal extinction is already folded into
the SED, so return `(0, 1, MW_av_lsst_<band>, MW_rv)`. -/
def getDust (self : SkyCatalogInterface) (i : ℤ) (band : String) :
    Except PyErr (ℚ × ℚ × ℚ × ℚ) := do
  let skycat_obj ← self.get_skycat_obj i
  let internal_av : ℚ := 0
  let internal_rv : ℚ := 1
  let galactic_av := skycat_obj.attrs ("MW_av_lsst_" ++ band)
  let galactic_rv := skycat_obj.attrs "MW_rv"
  return (internal_av, internal_rv, galactic_av, galactic_rv)

end SkyCatalogInterface

/-- `SkyCatalogInterface._rubin_area = 0.25 * np.pi * 649**2` (cm²),
the area-weighted effective aperture. -/
noncomputable def rubin_area : ℝ := 0.25 * Real.pi * 649^2

/-- The magnitude-to-flux conversion in `getObj`:
`flux = math.exp(-0.9210340371976184 * magnorm)`, the constant being
`0.4 * log(10)`, so that the flux for a given magnorm is
`10**(-0.4*magnorm)` relative to the magnorm = 0 normalization of the
SED. -/
noncomputable def magnormFlux (magnorm : ℝ) : ℝ :=
  Real.exp (-0.9210340371976184 * magnorm)

namespace SkyCatalogInterface

/-- `getObj(index, gsparams, rng, bandpass, chromatic, exp_time)`.
`gsparams` and `rng` carry no information visible in the result model
and are dropped; the external `sed.calculateFlux(bandpass)` is the
opaque parameter `calculateFlux` (with the bandpass folded in). -/
noncomputable def getObj (self : SkyCatalogInterface) (i : ℤ)
    (calculateFlux : SED → ℝ) (chromatic : Bool) (exp_time : ℚ) :
    Except PyErr (Option GSObject) := do
  let (obj_index, component) ← pyGet self.index i
  let skycat_obj ← pyGet self.objects obj_index
  let (sed?, magnorm) ← self.getSED_info i
  match sed? with
  | none => return none
  | some sed =>
  if magnorm.ge50 then return none
  else do
  let obj ←
    if skycat_obj.object_type = "star" then
      pure GSObject.deltaFunction
    else if skycat_obj.object_type = "galaxy" ∧
        (component = some "bulge" ∨ component = some "disk" ∨
         component = some "knots") then do
      let c := component.getD ""
      let my_component := if c = "knots" then "disk" else c
      let a := skycat_obj.attrs ("size_" ++ my_component ++ "_true")
      let b := skycat_obj.attrs ("size_minor_" ++ my_component ++ "_true")
      if ¬ a ≥ b then throw .assertionError  -- assert a >= b
      else do
      let pa := skycat_obj.attrs "position_angle_unlensed"
      let beta := if self.flip_g2 then 90 - pa else 90 + pa
      -- hlr = (a*b)**0.5, approximation for half-light radius
      let hlr : ℝ := Real.sqrt ((a : ℝ) * (b : ℝ))
      let obj ←
        if component = some "knots" then do
          let npoints := skycat_obj.attrs "n_knots"
          if ¬ npoints > 0 then throw .assertionError  -- assert npoints > 0
          else pure (GSObject.randomKnots npoints hlr)
        else
          pure (GSObject.sersic (quantize (skycat_obj.attrs ("sersic_" ++ c))) hlr)
      let obj := GSObject.sheared obj (b / a) beta
      let (g1, g2, mu) ← self.getLens i
      pure (GSObject.lensed obj g1 g2 mu)
    else
      -- raise RuntimeError("Do not know how to handle object type: ...")
      throw .runtimeError
  let flux := magnormFlux magnorm.toRat
  -- fAt = flux * self._rubin_area * exp_time, in photons
  let fAt := flux * rubin_area * (exp_time : ℝ)
  if chromatic then
    return some (GSObject.chromatic (GSObject.withFlux obj fAt) sed)
  else
    return some (GSObject.withFlux obj (calculateFlux sed * fAt))

end SkyCatalogInterface

/-! ## `src/python/desc/imsim/skyModel.py` -/

/-- A galsim image as used by `ESOSkyModel.addNoiseAndBackground`:
pixel bounds (`xmin`..`xmax`, `ymin`..`ymax`, pixel centers) and the
pixel values. -/
structure GSImage where
  xmin : ℤ
  xmax : ℤ
  ymin : ℤ
  ymax : ℤ
  pixels : List ℚ
  deriving DecidableEq

/-- `np.prod(image.array.shape)`: the number of pixels of the image. -/
def GSImage.npix (img : GSImage) : ℕ :=
  img.pixels.length

/-- A `galsim.PhotonArray`: per-photon x, y positions and fluxes. -/
structure PhotonArray where
  x : List ℚ
  y : List ℚ
  flux : List ℚ
  deriving DecidableEq

/-- `galsim.PhotonArray(nphotons)`: `nphotons` photons, all fields
zero-initialized (the float argument is truncated to an int). -/
def PhotonArray.alloc (nphotons : ℚ) : PhotonArray :=
  let n := (⌊nphotons⌋).toNat
  ⟨List.replicate n 0, List.replicate n 0, List.replicate n 0⟩

/-- A uniform random stream with a cursor: `stream k` is the k-th
uniform deviate in `[0,1)`. -/
structure RandomState where
  stream : ℕ → ℚ
  cursor : ℕ

/-- `self.randomNumbers.generate(arr)`: overwrite an array of length
`n` with the next `n` uniform deviates, advancing the stream. -/
def RandomState.generate (rng : RandomState) (n : ℕ) :
    List ℚ × RandomState :=
  ((List.range n).map fun k => rng.stream (rng.cursor + k),
   ⟨rng.stream, rng.cursor + n⟩)

/-- The local (and `self`-attribute) names that are actually bound in
the body of `addNoiseAndBackground` at the photon-position assignment
step; resolving any other name raises `NameError`.  In particular the
misspelled `photon_arra` used by the position-scaling statements is NOT
among them. -/
def boundNames : List String :=
  ["self", "image", "bandpass", "m5", "FWHMeff", "photParams",
   "skyModel", "ra", "dec", "mjd", "bandPassName", "skyMagnitude",
   "exposureTime", "skyCounts", "npix", "photons_per_pixel",
   "flux_per_photon", "nphotons", "photon_array"]

/-- Python name resolution for the embedded statements. -/
def loadName (n : String) : Except PyErr Unit :=
  if n ∈ boundNames then .ok () else .error .nameError

/-- The photon-position assignment step of `addNoiseAndBackground`
(lines `self.randomNumbers.generate(photon_array.x)` through
`photon_arra.y += image.ymin - 0.5`), as written in the source: the
generate calls target `photon_array`, but the four scale/shift
statements target the undefined name `photon_arra`. -/
def setPhotonPositions (image : GSImage) (photon_array : PhotonArray)
    (rng : RandomState) : Except PyErr (PhotonArray × RandomState) := do
  -- self.randomNumbers.generate(photon_array.x)
  loadName "photon_array"
  let (ux, rng) := rng.generate photon_array.x.length
  let photon_array := { photon_array with x := ux }
  -- photon_arra.x *= (image.xmax - image.xmin + 1)
  loadName "photon_arra"
  let photon_array :=
    { photon_array with
      x := photon_array.x.map (· * ((image.xmax : ℚ) - image.xmin + 1)) }
  -- photon_arra.x += image.xmin - 0.5
  loadName "photon_arra"
  let photon_array :=
    { photon_array with
      x := photon_array.x.map (· + ((image.xmin : ℚ) - 1/2)) }
  -- self.randomNumbers.generate(photon_array.y)
  loadName "photon_array"
  let (uy, rng) := rng.generate photon_array.y.length
  let photon_array := { photon_array with y := uy }
  -- photon_arra.y *= (image.ymax - image.ymin + 1)
  loadName "photon_arra"
  let photon_array :=
    { photon_array with
      y := photon_array.y.map (· * ((image.ymax : ℚ) - image.ymin + 1)) }
  -- photon_arra.y += image.ymin - 0.5
  loadName "photon_arra"
  let photon_array :=
    { photon_array with
      y := photon_array.y.map (· + ((image.ymin : ℚ) - 1/2)) }
  return (photon_array, rng)

/-- The `if self.addBackground:` block of `addNoiseAndBackground`,
from the `PhotonArray` allocation up to the wavelength-sampling
section.  `self.bandpassDict` is never set anywhere on `ESOSkyModel`
(the source comment says "No bandpassDict yet.  Need to add that."),
so reaching the wavelength section raises `AttributeError`; everything
after it (angles, sensor accumulation) is unreachable. -/
def addBackgroundBlock (image : GSImage) (skyCounts : ℚ)
    (rng : RandomState) : Except PyErr (GSImage × RandomState) := do
  let npix : ℕ := image.npix
  let photons_per_pixel : ℚ := 100
  let flux_per_photon := skyCounts / photons_per_pixel
  let nphotons := photons_per_pixel * (npix : ℚ)
  let photon_array := PhotonArray.alloc nphotons
  let (photon_array, _rng) ← setPhotonPositions image photon_array rng
  -- photon_array.flux = flux_per_photon (numpy broadcast)
  let photon_array :=
    { photon_array with
      flux := List.replicate photon_array.flux.length flux_per_photon }
  -- bandpass = self.bandpassDict[bandPassName]: attribute never set
  let _ := photon_array
  throw .attributeError

/-- `ESOSkyModel` state: the `addNoise` / `addBackground` flags set in
`__init__`. -/
structure ESOSkyModel where
  addNoise : Bool
  addBackground : Bool

/-- The noise model returned by `ESOSkyModel.getNoiseModel`:
`galsim.CCDNoise(rng, sky_level, gain, read_noise)`. -/
structure CCDNoise where
  sky_level : ℚ
  gain : ℚ
  read_noise : ℚ
  deriving DecidableEq

/-- The photometric parameters consumed here (`photParams.gain`,
`photParams.readnoise`). -/
structure PhotParams where
  gain : ℚ
  readnoise : ℚ
  deriving DecidableEq

/-- `getNoiseModel(skyLevel, photParams)`. -/
def ESOSkyModel.getNoiseModel (skyLevel : ℚ) (photParams : PhotParams) :
    CCDNoise :=
  ⟨skyLevel, photParams.gain, photParams.readnoise⟩

/-- `ESOSkyModel.addNoiseAndBackground(image, ...)`.  The sky-count
computation from the external sky-brightness model is the parameter
`skyCounts`; the external `image.addNoise(noiseModel)` application is
the parameter `applyNoise`.  The method first rebinds `image` to
`image.copy()`, so all mutation happens on the copy: the result pair is
`(the caller's image object after the call, the returned image)`. -/
def ESOSkyModel.addNoiseAndBackground (self : ESOSkyModel)
    (callerImage : GSImage) (skyCounts : ℚ) (photParams : PhotParams)
    (applyNoise : CCDNoise → GSImage → GSImage) (rng : RandomState) :
    Except PyErr (GSImage × GSImage) := do
  -- image = image.copy()
  let image := callerImage
  let (image, skyLevel, _rng) ←
    if self.addBackground then do
      let (image, rng) ← addBackgroundBlock image skyCounts rng
      -- skyLevel = 0.0: the background is already in the image, so the
      -- Poisson noise is computed from the actual image brightness
      pure (image, (0 : ℚ), rng)
    else
      pure (image, skyCounts * photParams.gain, rng)
  let image :=
    if self.addNoise then
      applyNoise (ESOSkyModel.getNoiseModel skyLevel photParams) image
    else image
  return (callerImage, image)

/-! ## Concrete fixtures

Small concrete catalogs used by witnesses and counterexamples. -/

/-- The `(wl, flambda, magnorm)` data of a well-behaved catalog galaxy:
a flat SED and a finite, renderable `magnorm = 20`. -/
def exSedData : Option String → List ℚ × List ℚ × PyFloat :=
  fun _ => ([300, 600, 1100], [1, 1, 1], .fin 20)

/-- A galaxy with a single `bulge` component, major axis 2.0, minor
axis 1.0, unlensed position angle 30°, Sérsic index 1 and zero
shear/convergence. -/
def exGalaxy : CatalogObject where
  object_type := "galaxy"
  subcomponents := ["bulge"]
  ra := 10
  dec := -20
  get_sed := exSedData
  attrs := fun s =>
    if s = "size_bulge_true" then 2
    else if s = "size_minor_bulge_true" then 1
    else if s = "position_angle_unlensed" then 30
    else if s = "sersic_bulge" then 1
    else if s = "shear_1" then 1/10
    else if s = "convergence" then 1/5
    else 0

/-- A galaxy sitting at convergence κ = 2 > 1 with zero shear: a legal
catalog entry away from both lensing singularities (κ ≠ 1 and
(1−κ)² = 1 ≠ 0 = γ²). -/
def exStrongLens : CatalogObject where
  object_type := "galaxy"
  subcomponents := ["bulge"]
  ra := 0
  dec := 0
  get_sed := exSedData
  attrs := fun s => if s = "convergence" then 2 else 0

/-- A galaxy with a single `knots` component whose `n_knots` is 0 (and
disk axes 2 ≥ 1, so the axis assertion passes). -/
def exKnotsGalaxy : CatalogObject where
  object_type := "galaxy"
  subcomponents := ["knots"]
  ra := 0
  dec := 0
  get_sed := exSedData
  attrs := fun s =>
    if s = "size_disk_true" then 2
    else if s = "size_minor_disk_true" then 1
    else if s = "n_knots" then 0
    else 0

/-- A corrupt galaxy record whose bulge minor axis (3) exceeds its
major axis (2). -/
def exCorruptGalaxy : CatalogObject where
  object_type := "galaxy"
  subcomponents := ["bulge"]
  ra := 0
  dec := 0
  get_sed := exSedData
  attrs := fun s =>
    if s = "size_bulge_true" then 2
    else if s = "size_minor_bulge_true" then 3
    else 0

/-- A star whose `magnorm` is positive infinity. -/
def exInfStar : CatalogObject where
  object_type := "star"
  subcomponents := []
  ra := 0
  dec := 0
  get_sed := fun _ => ([300, 600, 1100], [1, 1, 1], .posInf)
  attrs := fun _ => 0

/-- A star whose `magnorm` is 55 ≥ 50 (practically invisible). -/
def exDimStar : CatalogObject where
  object_type := "star"
  subcomponents := []
  ra := 0
  dec := 0
  get_sed := fun _ => ([300, 600, 1100], [1, 1, 1], .fin 55)
  attrs := fun _ => 0

/-- A one-galaxy catalog interface with `flip_g2 = True` (the
default). -/
def exCat : SkyCatalogInterface := ⟨[exGalaxy], true⟩

/-- The same catalog with `flip_g2 = False`. -/
def exCatNoFlip : SkyCatalogInterface := ⟨[exGalaxy], false⟩

/-- A catalog whose only index resolves to the `knots` component with
`n_knots = 0`. -/
def exCatKnots : SkyCatalogInterface := ⟨[exKnotsGalaxy], true⟩

/-- A catalog whose only index resolves to the corrupt bulge record. -/
def exCatCorrupt : SkyCatalogInterface := ⟨[exCorruptGalaxy], true⟩

/-- A catalog holding the infinite-`magnorm` star and the dim star. -/
def exCatStars : SkyCatalogInterface := ⟨[exInfStar, exDimStar], true⟩

/-- A catalog whose only object is the κ = 2 galaxy. -/
def exCatStrong : SkyCatalogInterface := ⟨[exStrongLens], true⟩

/-- The inverse of the reduced-shear/magnification map on the
physical κ < 1 branch: with s = √(μ·(1 − g1² − g2²)) = 1/(1−κ),
recover (γ1, γ2, κ) = (g1/s, g2/s, 1 − 1/s).  (The spec states the
forward formulas and asserts a round-trip through "the inverse
formulas"; these are them.) -/
noncomputable def invLens (g1 g2 mu : ℝ) : ℝ × ℝ × ℝ :=
  let s := Real.sqrt (mu * (1 - g1^2 - g2^2))
  (g1 / s, g2 / s, 1 - 1 / s)

/-- Modelled from the spec: the photon-position assignment that
`addNoiseAndBackground` evidently intends (the source misspells the
array name `photon_arra` in the four scale/shift statements): sample
each coordinate uniformly in [0,1) and map it affinely onto the padded
pixel extent, x into [xmin − 0.5, xmax + 0.5), then y into
[ymin − 0.5, ymax + 0.5). -/
def intendedSetPhotonPositions (image : GSImage) (photon_array : PhotonArray)
    (rng : RandomState) : PhotonArray × RandomState :=
  let (ux, rng) := rng.generate photon_array.x.length
  let photon_array :=
    { photon_array with
      x := ux.map fun u =>
        u * ((image.xmax : ℚ) - image.xmin + 1) + ((image.xmin : ℚ) - 1/2) }
  let (uy, rng) := rng.generate photon_array.y.length
  let photon_array :=
    { photon_array with
      y := uy.map fun u =>
        u * ((image.ymax : ℚ) - image.ymin + 1) + ((image.ymin : ℚ) - 1/2) }
  (photon_array, rng)

/-- The per-photon flux array that `photon_array.flux = flux_per_photon`
assigns (a numpy broadcast over the `nphotons = 100 * npix` photons,
each weighted `skyCounts / 100`). -/
def photonFluxes (npix : ℕ) (skyCounts : ℚ) : List ℚ :=
  List.replicate (100 * npix) (skyCounts / 100)

/-- A 1×1 image with a single zero pixel. -/
def exImage : GSImage := ⟨0, 0, 0, 0, [0]⟩

/-- Photometric parameters with gain 2 and read noise 5. -/
def exPhotParams : PhotParams := ⟨2, 5⟩

/-- A concrete noise application: add `sky_level + 1` to every pixel
(a stand-in for one realization of `galsim.CCDNoise`). -/
def exApplyNoise : CCDNoise → GSImage → GSImage :=
  fun nm img => { img with pixels := img.pixels.map fun p => p + nm.sky_level + 1 }

/-- A concrete uniform stream: every deviate is 1/2. -/
def exRandom : RandomState := ⟨fun _ => 1/2, 0⟩

/-! ## Helper lemmas -/

theorem bind_ok {α β : Type} (a : α) (f : α → Except PyErr β) :
    (Except.ok a >>= f : Except PyErr β) = f a := rfl

theorem bind_error {α β : Type} (e : PyErr) (f : α → Except PyErr β) :
    (Except.error e >>= f : Except PyErr β) = .error e := rfl

theorem pure_eq_ok {α : Type} (a : α) : (pure a : Except PyErr α) = .ok a := rfl

theorem throw_bind {α β : Type} (e : PyErr) (f : α → Except PyErr β) :
    ((throw e : Except PyErr α) >>= f) = .error e := rfl

theorem pyRound_intCast (k : ℤ) : pyRound (k : ℚ) = k := by
  simp [pyRound]

theorem pyRound_sub_le (q : ℚ) : |(pyRound q : ℚ) - q| ≤ 1/2 := by
  have hfl : (⌊q⌋ : ℚ) ≤ q := Int.floor_le q
  have hfl' : q < ⌊q⌋ + 1 := Int.lt_floor_add_one q
  unfold pyRound
  by_cases h1 : q - ⌊q⌋ < 1/2
  · simp only [h1, if_true]
    rw [abs_le]
    constructor <;> linarith
  · simp only [h1, if_false]
    by_cases h2 : 1/2 < q - ⌊q⌋
    · simp only [h2, if_true]
      rw [abs_le]
      push_cast
      constructor <;> linarith
    · simp only [h2, if_false]
      have heq : q - ⌊q⌋ = 1/2 := le_antisymm (not_lt.mp h2) (not_lt.mp h1)
      by_cases h3 : Even ⌊q⌋ <;> simp only [h3, if_true, if_false] <;>
        rw [abs_le] <;> push_cast <;> constructor <;> linarith

theorem pyGet_out_of_range {α : Type} (xs : List α) (i : ℤ)
    (h : (xs.length : ℤ) ≤ i ∨ i < -(xs.length : ℤ)) :
    pyGet xs i = .error .indexError := by
  unfold pyGet
  dsimp only
  rw [dif_neg]
  by_cases hneg : i < 0 <;> simp only [hneg, if_true, if_false] <;> omega

/-! ## Claims -/

/-- C4: the Sérsic-index quantization `quantize n = round(n*20)/20`
used by `getObj` is idempotent, `quantize n` is an integer multiple of
0.05 = 1/20, and `quantize n` lies within 0.025 = 1/40 (half the step)
of `n`. -/
theorem quantize_idempotent_step (n : ℚ) :
    quantize (quantize n) = quantize n ∧
    (∃ k : ℤ, quantize n = k * (1/20)) ∧
    |quantize n - n| ≤ 1/40 := by
  refine ⟨?_, ⟨pyRound (n * 20), by rw [quantize]; ring⟩, ?_⟩
  · have h20 : (20 : ℚ) ≠ 0 := by norm_num
    rw [quantize, quantize, div_mul_cancel₀ _ h20, pyRound_intCast]
  · have h := pyRound_sub_le (n * 20)
    rw [quantize]
    have heq : (pyRound (n * 20) : ℚ) / 20 - n = ((pyRound (n * 20) : ℚ) - n * 20) / 20 := by
      ring
    rw [heq, abs_div]
    rw [show |(20 : ℚ)| = 20 by norm_num]
    linarith [abs_nonneg ((pyRound (n * 20) : ℚ) - n * 20)]

/-- Witness for C4 at n = 0.33: quantization is idempotent there, a
multiple of 0.05, and within 0.025 of n. -/
theorem quantize_idempotent_step_witness :
    quantize (quantize (33/100)) = quantize (33/100) ∧
    (∃ k : ℤ, quantize (33/100) = k * (1/20)) ∧
    |quantize (33/100) - 33/100| ≤ 1/40 :=
  quantize_idempotent_step (33/100)

/-- C6: the magnitude-to-flux conversion
`flux = exp(-0.9210340371976184 * magnorm)` of `getObj` satisfies
`flux 0 = 1` exactly and is strictly decreasing in `magnorm`. -/
theorem magnormFlux_one_strictAnti :
    magnormFlux 0 = 1 ∧
    ∀ m1 m2 : ℝ, m1 < m2 → magnormFlux m2 < magnormFlux m1 := by
  constructor
  · simp [magnormFlux]
  · intro m1 m2 h
    apply Real.exp_lt_exp.mpr
    nlinarith

/-- Witness for C6 at magnorms 0 < 1: the flux at magnorm 1 is below
the flux at magnorm 0. -/
theorem magnormFlux_one_strictAnti_witness :
    magnormFlux 1 < magnormFlux 0 :=
  magnormFlux_one_strictAnti.2 0 1 (by norm_num)

theorem invLens_roundtrip_real (g1 g2 k : ℝ) (hk : k < 1)
    (hD : (1 - k)^2 ≠ g1^2 + g2^2) :
    invLens (g1 / (1 - k)) (g2 / (1 - k)) (1 / ((1 - k)^2 - (g1^2 + g2^2))) =
      (g1, g2, k) := by
  have ht : (0 : ℝ) < 1 - k := by linarith
  have ht0 : (1 : ℝ) - k ≠ 0 := ne_of_gt ht
  have hD0 : (1 - k)^2 - (g1^2 + g2^2) ≠ 0 := sub_ne_zero.mpr hD
  unfold invLens
  have harg : (1 / ((1 - k)^2 - (g1^2 + g2^2))) *
      (1 - (g1 / (1 - k))^2 - (g2 / (1 - k))^2) = (1 / (1 - k))^2 := by
    field_simp
    ring
  rw [harg]
  rw [Real.sqrt_sq (by positivity : (0:ℝ) ≤ 1 / (1 - k))]
  refine Prod.ext ?_ (Prod.ext ?_ ?_) <;> field_simp

/-- C3 as amended: for a resolvable index whose object has convergence
κ < 1 and (1−κ)² ≠ γ1²+γ2², `getLens` returns exactly
(γ1/(1−κ), γ2/(1−κ), 1/((1−κ)² − (γ1²+γ2²))), and the inverse formulas
`invLens` recover (γ1, γ2, κ) exactly.  (For κ > 1 the claimed
round-trip fails: see the counterexample.) -/
theorem getLens_reduced_shear_roundtrip (st : SkyCatalogInterface) (i : ℤ)
    (o : CatalogObject)
    (hobj : st.get_skycat_obj i = .ok o)
    (hk : o.attrs "convergence" < 1)
    (hD : (1 - o.attrs "convergence")^2 ≠
      (o.attrs "shear_1")^2 + (o.attrs "shear_2")^2) :
    st.getLens i = .ok
      (o.attrs "shear_1" / (1 - o.attrs "convergence"),
       o.attrs "shear_2" / (1 - o.attrs "convergence"),
       1 / ((1 - o.attrs "convergence")^2 -
         ((o.attrs "shear_1")^2 + (o.attrs "shear_2")^2))) ∧
    invLens ((o.attrs "shear_1" / (1 - o.attrs "convergence") : ℚ) : ℝ)
        ((o.attrs "shear_2" / (1 - o.attrs "convergence") : ℚ) : ℝ)
        ((1 / ((1 - o.attrs "convergence")^2 -
          ((o.attrs "shear_1")^2 + (o.attrs "shear_2")^2)) : ℚ) : ℝ) =
      ((o.attrs "shear_1" : ℝ), (o.attrs "shear_2" : ℝ),
       (o.attrs "convergence" : ℝ)) := by
  constructor
  · unfold SkyCatalogInterface.getLens
    rw [hobj, bind_ok]
    rfl
  · push_cast
    apply invLens_roundtrip_real
    · exact_mod_cast hk
    · exact_mod_cast hD

/-- Witness for C3 (amended) at the concrete catalog `exCat`, whose
galaxy has γ1 = 1/10, γ2 = 0, κ = 1/5. -/
theorem getLens_reduced_shear_roundtrip_witness :
    SkyCatalogInterface.getLens exCat 0 = .ok
      (exGalaxy.attrs "shear_1" / (1 - exGalaxy.attrs "convergence"),
       exGalaxy.attrs "shear_2" / (1 - exGalaxy.attrs "convergence"),
       1 / ((1 - exGalaxy.attrs "convergence")^2 -
         ((exGalaxy.attrs "shear_1")^2 + (exGalaxy.attrs "shear_2")^2))) ∧
    invLens ((exGalaxy.attrs "shear_1" / (1 - exGalaxy.attrs "convergence") : ℚ) : ℝ)
        ((exGalaxy.attrs "shear_2" / (1 - exGalaxy.attrs "convergence") : ℚ) : ℝ)
        ((1 / ((1 - exGalaxy.attrs "convergence")^2 -
          ((exGalaxy.attrs "shear_1")^2 + (exGalaxy.attrs "shear_2")^2)) : ℚ) : ℝ) =
      ((exGalaxy.attrs "shear_1" : ℝ), (exGalaxy.attrs "shear_2" : ℝ),
       (exGalaxy.attrs "convergence" : ℝ)) :=
  getLens_reduced_shear_roundtrip exCat 0 exGalaxy rfl
    (by simp +decide [exGalaxy]; norm_num)
    (by simp +decide [exGalaxy]; norm_num)

/-- C3 counterexample: the claim as stated (round-trip for every κ ≠ 1
with (1−κ)² ≠ γ²) fails at (γ1, γ2, κ) = (0, 0, 2): the κ = 2 object
and a κ = 0 object produce the identical lens triple (0, 0, 1) — so no
inverse can recover both — and the κ < 1 branch inverse recovers
(0, 0, 0) ≠ (0, 0, 2). -/
theorem getLens_roundtrip_counterexample :
    exStrongLens.attrs "convergence" = 2 ∧
    SkyCatalogInterface.getLens exCatStrong 0 = .ok (0, 0, 1) ∧
    SkyCatalogInterface.getLens exCatStars 0 = .ok (0, 0, 1) ∧
    invLens 0 0 1 = ((0 : ℝ), (0 : ℝ), (0 : ℝ)) ∧
    (0 : ℝ) ≠ ((exStrongLens.attrs "convergence" : ℚ) : ℝ) := by
  have hobj1 : SkyCatalogInterface.get_skycat_obj exCatStrong 0 = .ok exStrongLens := rfl
  have hobj2 : SkyCatalogInterface.get_skycat_obj exCatStars 0 = .ok exInfStar := rfl
  refine ⟨by simp +decide [exStrongLens], ?_, ?_, ?_, ?_⟩
  · unfold SkyCatalogInterface.getLens
    rw [hobj1, bind_ok]
    simp +decide [exStrongLens, pure_eq_ok]
    norm_num
  · unfold SkyCatalogInterface.getLens
    rw [hobj2, bind_ok]
    simp +decide [exInfStar, pure_eq_ok]
  · simp [invLens]
  · simp +decide [exStrongLens]

/-- C1: `getObj` returns `None` — raising no exception — whenever
`getSED_info` resolves the index to a null spectrum (which it does
exactly when `magnorm` is infinite) or to a `magnorm ≥ 50`. -/
theorem getObj_none_when_unrenderable (st : SkyCatalogInterface) (i : ℤ)
    (sed? : Option SED) (m : PyFloat) (cf : SED → ℝ) (chrom : Bool) (et : ℚ)
    (h : st.getSED_info i = .ok (sed?, m))
    (hskip : sed? = none ∨ m.ge50 = true) :
    st.getObj i cf chrom et = .ok none := by
  unfold SkyCatalogInterface.getSED_info at h
  cases hidx : pyGet st.index i with
  | error e => rw [hidx] at h; simp [bind_error] at h
  | ok p =>
    obtain ⟨obj_index, component⟩ := p
    rw [hidx] at h
    rw [bind_ok] at h
    simp only at h
    cases hobj : pyGet st.objects (obj_index : ℤ) with
    | error e =>
      rw [hobj] at h; simp [bind_error] at h
    | ok o =>
      rw [hobj, bind_ok] at h
      rcases hsed : o.get_sed component with ⟨wl, fl, mg⟩
      simp only [hsed] at h
      unfold SkyCatalogInterface.getObj SkyCatalogInterface.getSED_info
      simp only [hidx, bind_ok, bind_error, pure_eq_ok, hobj, hsed]
      by_cases hinf : mg.isinf
      · simp only [hinf, if_true, pure_eq_ok, Except.ok.injEq, Prod.mk.injEq] at h
        simp [hinf, ← h.1, bind_ok, pure_eq_ok]
      · simp only [hinf, Bool.false_eq_true, if_false, pure_eq_ok, Except.ok.injEq,
          Prod.mk.injEq] at h
        obtain ⟨h1, h2⟩ := h
        rcases hskip with hnone | hge
        · rw [hnone] at h1; exact absurd h1 (by simp)
        · subst h2
          simp [hinf, bind_ok, pure_eq_ok, hge]

/-- Witness for C1: in the two-star catalog, index 0 resolves to
`magnorm = +inf` (null SED) and index 1 to `magnorm = 55 ≥ 50`; both
yield `.ok none` from `getObj`. -/
theorem getObj_none_when_unrenderable_witness :
    SkyCatalogInterface.getObj exCatStars 0 (fun _ => 1) false 30 = .ok none ∧
    SkyCatalogInterface.getObj exCatStars 1 (fun _ => 1) false 30 = .ok none :=
  ⟨getObj_none_when_unrenderable exCatStars 0 none .posInf (fun _ => 1) false 30
      rfl (Or.inl rfl),
   getObj_none_when_unrenderable exCatStars 1 (some ⟨[300, 600, 1100], [1, 1, 1]⟩)
      (.fin 55) (fun _ => 1) false 30 rfl (Or.inr (by decide))⟩

/-- C2: for the concrete galaxy with bulge axes a = 2.0, b = 1.0,
`position_angle_unlensed` = 30° and `flip_g2 = True`, the profile built
by `getObj` has half-light radius √(a·b) = √2, intrinsic shear
q = b/a = 1/2 at position angle β = 90 − 30 = 60°; with
`flip_g2 = False` the angle is 90 + 30 = 120°. -/
theorem getObj_bulge_profile_params :
    (SkyCatalogInterface.getObj exCat 0 (fun _ => 1) false 30).map
        (Option.map GSObject.hlr?) = .ok (some (some (Real.sqrt 2))) ∧
    (SkyCatalogInterface.getObj exCat 0 (fun _ => 1) false 30).map
        (Option.map GSObject.shearParams?) = .ok (some (some (1/2, 60))) ∧
    (SkyCatalogInterface.getObj exCatNoFlip 0 (fun _ => 1) false 30).map
        (Option.map GSObject.shearParams?) = .ok (some (some (1/2, 120))) := by
  refine ⟨?_, ?_, ?_⟩
  · simp [SkyCatalogInterface.getObj, SkyCatalogInterface.getSED_info,
      SkyCatalogInterface.getLens, SkyCatalogInterface.get_skycat_obj, exCat,
      exGalaxy, exSedData, SkyCatalogInterface.index, pyGet, quantize, pyRound,
      PyFloat.ge50, PyFloat.isinf, PyFloat.toRat, GSObject.hlr?, bind_ok,
      bind_error, pure_eq_ok, Except.instMonad, Except.bind, Except.pure,
      Except.map, Bind.bind, Pure.pure, Functor.map]
    norm_num [GSObject.hlr?]
  · simp [SkyCatalogInterface.getObj, SkyCatalogInterface.getSED_info,
      SkyCatalogInterface.getLens, SkyCatalogInterface.get_skycat_obj, exCat,
      exGalaxy, exSedData, SkyCatalogInterface.index, pyGet, quantize, pyRound,
      PyFloat.ge50, PyFloat.isinf, PyFloat.toRat, GSObject.shearParams?, bind_ok,
      bind_error, pure_eq_ok, Except.instMonad, Except.bind, Except.pure,
      Except.map, Bind.bind, Pure.pure, Functor.map]
    norm_num [GSObject.shearParams?]
  · simp [SkyCatalogInterface.getObj, SkyCatalogInterface.getSED_info,
      SkyCatalogInterface.getLens, SkyCatalogInterface.get_skycat_obj,
      exCatNoFlip, exGalaxy, exSedData, SkyCatalogInterface.index, pyGet,
      quantize, pyRound, PyFloat.ge50, PyFloat.isinf, PyFloat.toRat,
      GSObject.shearParams?, bind_ok, bind_error, pure_eq_ok, Except.instMonad,
      Except.bind, Except.pure, Except.map, Bind.bind, Pure.pure, Functor.map]
    norm_num [GSObject.shearParams?]

/-- C5 counterexample: the claim says every negative index fails, but
Python list indexing wraps negative indices: in the one-object catalog
(count = 1), index −1 resolves to the object and returns a value
instead of raising `IndexError`. -/
theorem negative_index_resolves_counterexample :
    SkyCatalogInterface.getNObjects exCat = 1 ∧
    SkyCatalogInterface.get_skycat_obj exCat (-1) = .ok exGalaxy := by
  exact ⟨rfl, rfl⟩

/-- C5 as amended: for every index `i` with `i ≥ count` or
`i < -count`, index resolution and the per-index queries
(`get_skycat_obj`, `getSED_info`, `getWorldPos`, `getObj`) fail with
`IndexError` and never return a value; negative indices in
`[-count, 0)` wrap around per Python list semantics. -/
theorem index_out_of_range_raises (st : SkyCatalogInterface) (i : ℤ)
    (cf : SED → ℝ) (chrom : Bool) (et : ℚ)
    (h : (st.getNObjects : ℤ) ≤ i ∨ i < -(st.getNObjects : ℤ)) :
    st.get_skycat_obj i = .error .indexError ∧
    st.getSED_info i = .error .indexError ∧
    st.getWorldPos i = .error .indexError ∧
    st.getObj i cf chrom et = .error .indexError := by
  have hidx : pyGet st.index i = .error .indexError :=
    pyGet_out_of_range st.index i h
  refine ⟨?_, ?_, ?_, ?_⟩
  · unfold SkyCatalogInterface.get_skycat_obj
    simp [hidx, bind_error]
  · unfold SkyCatalogInterface.getSED_info
    simp [hidx, bind_error]
  · unfold SkyCatalogInterface.getWorldPos SkyCatalogInterface.get_skycat_obj
    simp [hidx, bind_error]
  · unfold SkyCatalogInterface.getObj
    simp [hidx, bind_error]

/-- Witness for C5 (amended) at the one-object catalog: index 5 ≥ 1 and
index −2 < −1 both raise `IndexError` from every query. -/
theorem index_out_of_range_raises_witness :
    SkyCatalogInterface.get_skycat_obj exCat 5 = .error .indexError ∧
    SkyCatalogInterface.getObj exCat (-2) (fun _ => 1) false 30 =
      .error .indexError :=
  ⟨(index_out_of_range_raises exCat 5 (fun _ => 1) false 30
      (Or.inl (by decide))).1,
   (index_out_of_range_raises exCat (-2) (fun _ => 1) false 30
      (Or.inr (by decide))).2.2.2⟩

/-- C7: for a galaxy `knots` component whose `n_knots` attribute is
≤ 0, `getObj` fails with the `assert npoints > 0` assertion and builds
no profile; and for any galaxy component whose minor axis exceeds its
major axis, `getObj` fails with the `assert a >= b` assertion before
any profile is built. -/
theorem getObj_assertion_failures :
    (∀ (st : SkyCatalogInterface) (i : ℤ) (obj_index : ℕ) (o : CatalogObject)
      (wl fl : List ℚ) (mq : ℚ) (cf : SED → ℝ) (chrom : Bool) (et : ℚ),
      pyGet st.index i = .ok (obj_index, some "knots") →
      pyGet st.objects (obj_index : ℤ) = .ok o →
      o.get_sed (some "knots") = (wl, fl, .fin mq) →
      mq < 50 →
      o.object_type = "galaxy" →
      o.attrs "size_disk_true" ≥ o.attrs "size_minor_disk_true" →
      o.attrs "n_knots" ≤ 0 →
      st.getObj i cf chrom et = .error .assertionError) ∧
    (∀ (st : SkyCatalogInterface) (i : ℤ) (obj_index : ℕ) (o : CatalogObject)
      (c : String) (wl fl : List ℚ) (mq : ℚ) (cf : SED → ℝ) (chrom : Bool)
      (et : ℚ),
      c = "bulge" ∨ c = "disk" ∨ c = "knots" →
      pyGet st.index i = .ok (obj_index, some c) →
      pyGet st.objects (obj_index : ℤ) = .ok o →
      o.get_sed (some c) = (wl, fl, .fin mq) →
      mq < 50 →
      o.object_type = "galaxy" →
      o.attrs ("size_" ++ (if c = "knots" then "disk" else c) ++ "_true") <
        o.attrs ("size_minor_" ++ (if c = "knots" then "disk" else c) ++ "_true") →
      st.getObj i cf chrom et = .error .assertionError) := by
  constructor
  · intro st i obj_index o wl fl mq cf chrom et hidx hobj hsed hmq hgal hab hkn
    unfold SkyCatalogInterface.getObj SkyCatalogInterface.getSED_info
    simp only [hidx, bind_ok, bind_error, pure_eq_ok, hobj, hsed]
    simp [PyFloat.isinf, PyFloat.ge50, not_le.mpr hmq, hgal, bind_ok, bind_error,
      pure_eq_ok, throw_bind, not_lt.mpr hab, hkn]
  · intro st i obj_index o c wl fl mq cf chrom et hc hidx hobj hsed hmq hgal hba
    unfold SkyCatalogInterface.getObj SkyCatalogInterface.getSED_info
    rcases hc with hc | hc | hc <;> subst hc <;>
      simp only [hidx, bind_ok, bind_error, pure_eq_ok, hobj, hsed] <;>
      simp_all [PyFloat.isinf, PyFloat.ge50, not_le.mpr hmq, hgal, bind_ok,
        bind_error, pure_eq_ok, throw_bind]

/-- Witness for C7: the `n_knots = 0` catalog and the corrupt
(minor = 3 > major = 2) catalog both make `getObj` raise the assertion
error. -/
theorem getObj_assertion_failures_witness :
    SkyCatalogInterface.getObj exCatKnots 0 (fun _ => 1) false 30 =
      .error .assertionError ∧
    SkyCatalogInterface.getObj exCatCorrupt 0 (fun _ => 1) false 30 =
      .error .assertionError :=
  ⟨getObj_assertion_failures.1 exCatKnots 0 0 exKnotsGalaxy [300, 600, 1100]
      [1, 1, 1] 20 (fun _ => 1) false 30 rfl rfl rfl (by norm_num) rfl
      (by simp +decide [exKnotsGalaxy])
      (by simp +decide [exKnotsGalaxy]),
   getObj_assertion_failures.2 exCatCorrupt 0 0 exCorruptGalaxy "bulge"
      [300, 600, 1100] [1, 1, 1] 20 (fun _ => 1) false 30 (Or.inl rfl) rfl rfl
      rfl (by norm_num) rfl
      (by simp +decide [exCorruptGalaxy])⟩

/-- C8: the photon-position assignment step of
`ESOSkyModel.addNoiseAndBackground` as written always raises
`NameError` (its scale/shift statements reference the undefined name
`photon_arra`), for every image, photon array and random stream; the
evidently intended symmetric x-then-y assignment
(`intendedSetPhotonPositions`) would place every x uniformly in
[xmin − ½, xmax + ½) and every y in [ymin − ½, ymax + ½). -/
theorem setPhotonPositions_raises_nameError :
    (∀ (img : GSImage) (pa : PhotonArray) (rng : RandomState),
      setPhotonPositions img pa rng = .error .nameError) ∧
    (∀ (img : GSImage) (pa : PhotonArray) (rng : RandomState),
      (∀ k, 0 ≤ rng.stream k ∧ rng.stream k < 1) →
      img.xmin ≤ img.xmax → img.ymin ≤ img.ymax →
      (∀ x ∈ (intendedSetPhotonPositions img pa rng).1.x,
        (img.xmin : ℚ) - 1/2 ≤ x ∧ x < (img.xmax : ℚ) + 1/2) ∧
      (∀ y ∈ (intendedSetPhotonPositions img pa rng).1.y,
        (img.ymin : ℚ) - 1/2 ≤ y ∧ y < (img.ymax : ℚ) + 1/2)) := by
  constructor
  · intro img pa rng
    simp [setPhotonPositions, loadName, boundNames, bind_ok, bind_error, pure_eq_ok]
  · intro img pa rng hu hx hy
    have hxw : (1 : ℚ) ≤ (img.xmax : ℚ) - img.xmin + 1 := by
      have : (img.xmin : ℚ) ≤ (img.xmax : ℚ) := by exact_mod_cast hx
      linarith
    have hyw : (1 : ℚ) ≤ (img.ymax : ℚ) - img.ymin + 1 := by
      have : (img.ymin : ℚ) ≤ (img.ymax : ℚ) := by exact_mod_cast hy
      linarith
    constructor
    · intro x hxmem
      simp only [intendedSetPhotonPositions, RandomState.generate, List.mem_map,
        List.mem_range] at hxmem
      obtain ⟨u, ⟨k, hk, rfl⟩, rfl⟩ := hxmem
      obtain ⟨h0, h1⟩ := hu (rng.cursor + k)
      constructor
      · nlinarith
      · nlinarith
    · intro y hymem
      simp only [intendedSetPhotonPositions, RandomState.generate, List.mem_map,
        List.mem_range] at hymem
      obtain ⟨u, ⟨k, hk, rfl⟩, rfl⟩ := hymem
      obtain ⟨h0, h1⟩ := hu (rng.cursor + pa.x.length + k)
      constructor
      · nlinarith
      · nlinarith

/-- Witness for C8: at the concrete 1×1 image, a 2-photon array and the
constant-½ uniform stream, the assignment step errors and the intended
x positions land in the padded extent. -/
theorem setPhotonPositions_raises_nameError_witness :
    setPhotonPositions exImage (PhotonArray.alloc 2) exRandom = .error .nameError ∧
    (∀ x ∈ (intendedSetPhotonPositions exImage (PhotonArray.alloc 2) exRandom).1.x,
      (exImage.xmin : ℚ) - 1/2 ≤ x ∧ x < (exImage.xmax : ℚ) + 1/2) :=
  ⟨setPhotonPositions_raises_nameError.1 exImage (PhotonArray.alloc 2) exRandom,
   (setPhotonPositions_raises_nameError.2 exImage (PhotonArray.alloc 2) exRandom
      (fun _ => by norm_num [exRandom]) (by decide) (by decide)).1⟩

/-- C9: the photon batch allocated by the background block of
`addNoiseAndBackground` for an `npix`-pixel image at the hard-coded
density of 100 photons/pixel has exactly `100 * npix` photons; the
per-photon flux assignment `photon_array.flux = skyCounts/100` would
make the weights sum to `npix * skyCounts`, the total sky counts of the
image; but the block as written aborts with `NameError` (the misspelled
`photon_arra`, C8) before the flux assignment executes. -/
theorem photonBatch_size_flux_abort :
    (∀ npix : ℕ, (PhotonArray.alloc ((100 : ℚ) * npix)).x.length = 100 * npix) ∧
    (∀ (npix : ℕ) (skyCounts : ℚ),
      (photonFluxes npix skyCounts).sum = npix * skyCounts) ∧
    (∀ (img : GSImage) (skyCounts : ℚ) (rng : RandomState),
      addBackgroundBlock img skyCounts rng = .error .nameError) := by
  refine ⟨?_, ?_, ?_⟩
  · intro npix
    simp [PhotonArray.alloc]
    norm_cast
  · intro npix sc
    simp [photonFluxes, List.sum_replicate, nsmul_eq_mul]
    ring
  · intro img sc rng
    simp [addBackgroundBlock, setPhotonPositions, loadName, boundNames,
      bind_ok, bind_error, pure_eq_ok]

/-- Witness for C9 at the 1-pixel image with skyCounts = 7. -/
theorem photonBatch_size_flux_abort_witness :
    (PhotonArray.alloc ((100 : ℚ) * exImage.npix)).x.length =
      100 * exImage.npix ∧
    (photonFluxes exImage.npix 7).sum = exImage.npix * 7 ∧
    addBackgroundBlock exImage 7 exRandom = .error .nameError :=
  ⟨photonBatch_size_flux_abort.1 exImage.npix,
   photonBatch_size_flux_abort.2.1 exImage.npix 7,
   photonBatch_size_flux_abort.2.2 exImage 7 exRandom⟩

/-- C10 counterexample: with noise requested and background disabled,
`addNoiseAndBackground` does NOT put the noise into the caller's image:
the method rebinds `image` to `image.copy()` and applies the noise
model to the copy, which is returned; the caller's 1-pixel image still
holds pixel 0 while the returned image holds pixel 7. -/
theorem addNoiseAndBackground_not_in_place :
    ESOSkyModel.addNoiseAndBackground ⟨true, false⟩ exImage 3 exPhotParams
      exApplyNoise exRandom = .ok (exImage, ⟨0, 0, 0, 0, [7]⟩) ∧
    exImage.pixels ≠ [7] := by
  constructor
  · simp [ESOSkyModel.addNoiseAndBackground, ESOSkyModel.getNoiseModel, bind_ok,
      bind_error, pure_eq_ok, exImage, exApplyNoise, exPhotParams, exRandom]
    norm_num
  · decide

/-- C10 as amended: when noise is requested, `addNoiseAndBackground`
applies the Poisson-plus-read-noise model to a copy of the caller's
image and returns the copy — the input image object is unchanged — with
sky-level pedestal `skyCounts * gain` when the background is not
accumulated as photons; the photon-accumulation branch (which sets the
pedestal to 0) aborts beforehand with the C8 `NameError`. -/
theorem addNoiseAndBackground_copy_semantics :
    (∀ (img : GSImage) (sc : ℚ) (pp : PhotParams)
      (f : CCDNoise → GSImage → GSImage) (rng : RandomState),
      ESOSkyModel.addNoiseAndBackground ⟨true, false⟩ img sc pp f rng =
        .ok (img, f (ESOSkyModel.getNoiseModel (sc * pp.gain) pp) img)) ∧
    (∀ (img : GSImage) (sc : ℚ) (pp : PhotParams)
      (f : CCDNoise → GSImage → GSImage) (rng : RandomState),
      ESOSkyModel.addNoiseAndBackground ⟨true, true⟩ img sc pp f rng =
        .error .nameError) := by
  constructor
  · intro img sc pp f rng
    simp [ESOSkyModel.addNoiseAndBackground, bind_ok, bind_error, pure_eq_ok]
  · intro img sc pp f rng
    simp [ESOSkyModel.addNoiseAndBackground, addBackgroundBlock, setPhotonPositions,
      loadName, boundNames, bind_ok, bind_error, pure_eq_ok]

/-- Witness for C10 (amended) at the 1-pixel image: the caller's image
comes back unchanged next to the noised copy, and the background branch
aborts with `NameError`. -/
theorem addNoiseAndBackground_copy_semantics_witness :
    ESOSkyModel.addNoiseAndBackground ⟨true, false⟩ exImage 3 exPhotParams
      exApplyNoise exRandom =
      .ok (exImage,
        exApplyNoise (ESOSkyModel.getNoiseModel (3 * exPhotParams.gain)
          exPhotParams) exImage) ∧
    ESOSkyModel.addNoiseAndBackground ⟨true, true⟩ exImage 3 exPhotParams
      exApplyNoise exRandom = .error .nameError :=
  ⟨addNoiseAndBackground_copy_semantics.1 exImage 3 exPhotParams exApplyNoise
      exRandom,
   addNoiseAndBackground_copy_semantics.2 exImage 3 exPhotParams exApplyNoise
      exRandom⟩

end ImSim
